import Mathlib

/-!
Verification of `script.js` (portfolio page enhancements).

The file shallowly embeds the event handlers of `script.js`:

* the shared `classList` operations (`classAdd`, `classRemove`, `classToggle`);
* the contact-form submit handler (trimming, the email regex, the error
  list, the feedback element / `alert` fallback, `reset`);
* the theme toggle and its initialization (`applyTheme`, `localStorage`);
* the back-to-top scroll handler (the 400px threshold);
* the scroll highlighter (`onScrollHighlight`);
* a small CSS-selector model (descendant selectors over ancestor chains)
  for the queries `nav ul`, `nav ul li a`, `#project-modal`,
  `#project-modal .modal-close`, `#nav-toggle`, used to analyse which
  handlers can dereference a missing element.

Strings typed into form fields are modelled as `List Char`; fixed message
texts are Lean `String`s.  Scroll offsets are modelled as `ℚ` (JS numbers,
restricted to the exact arithmetic the script performs).
-/

namespace Portfolio

/-! ### classList operations

`el.classList` behaves as a token list: `add` appends the token when it is
not yet present, `remove` deletes it, `toggle` flips it. -/

/-- `classList.add c`: append `c` unless already present. -/
def classAdd (cs : List String) (c : String) : List String :=
  if c ∈ cs then cs else cs ++ [c]

/-- `classList.remove c`: delete every occurrence of `c`. -/
def classRemove (cs : List String) (c : String) : List String :=
  cs.filter (fun x => decide (x ≠ c))

/-- `classList.toggle c`: remove `c` when present, add it otherwise. -/
def classToggle (cs : List String) (c : String) : List String :=
  if c ∈ cs then classRemove cs c else classAdd cs c

/-! ### Contact form (script.js lines 80–127) -/

/-- Whitespace characters for `String.prototype.trim` (the ASCII ones the
form can realistically contain). -/
def isSpaceChar (c : Char) : Bool :=
  c = ' ' || c = '\t' || c = '\n' || c = '\r' || c = '\x0b' || c = '\x0c'

/-- `value.trim()`: strip leading and trailing whitespace. -/
def jsTrim (l : List Char) : List Char :=
  ((l.dropWhile isSpaceChar).reverse.dropWhile isSpaceChar).reverse

/-- Characters admitted by `[^\s@]` in the email regex. -/
def isEmailChar (c : Char) : Bool :=
  !isSpaceChar c && c ≠ '@'

/-- `emailRegex.test` for `/^[^\s@]+@[^\s@]+\.[^\s@]+$/` (script.js line
90): the string must split as `local @ domain` with exactly one `'@'`,
non-empty all-`[^\s@]` local part, and a domain of the form
`B ++ "." ++ C` with `B`, `C` non-empty and all-`[^\s@]` — equivalently a
`'.'` at an interior position of the domain. -/
def emailRegexTest (l : List Char) : Bool :=
  match l.splitOn '@' with
  | [loc, domain] =>
    !loc.isEmpty && loc.all isEmailChar &&
      domain.all isEmailChar && ((domain.drop 1).dropLast.contains '.')
  | _ => false

/-- Error message pushed when the trimmed name is empty (line 92). -/
def nameErrorMsg : String := "Please enter your name."

/-- Error message pushed when the trimmed email is empty or fails the
regex (line 93). -/
def emailErrorMsg : String := "Please enter a valid email."

/-- Error message pushed when the trimmed message is empty (line 94). -/
def messageErrorMsg : String := "Please add a message."

/-- Success message (lines 115 and 119). -/
def successMsg : String := "Message sent successfully! Thank you 😊"

/-- The `errors` array built by the submit handler (lines 91–94), from the
raw field values (the handler trims them on read, lines 85–87). -/
def validationErrors (name email message : List Char) : List String :=
  (if (jsTrim name).isEmpty then [nameErrorMsg] else []) ++
    (if (jsTrim email).isEmpty || !emailRegexTest (jsTrim email)
      then [emailErrorMsg] else []) ++
    (if (jsTrim message).isEmpty then [messageErrorMsg] else [])

/-- The `#form-feedback` element: its `textContent` and class list. -/
structure FeedbackElem where
  textContent : String
  classes : List String
deriving DecidableEq

/-- Observable outcome of one run of the submit handler. -/
structure SubmitOutcome where
  /-- Final state of the feedback element, when it exists. -/
  feedback : Option FeedbackElem
  /-- Argument of the `alert` call, when one happened. -/
  alertMsg : Option String
  /-- Whether `console.warn` fired (missing feedback element, line 99). -/
  warned : Bool
  /-- Values of the three inputs after the handler (reset clears them). -/
  fieldsAfter : List Char × List Char × List Char
  /-- Whether `contactForm.reset()` was reached (line 123). -/
  didReset : Bool
deriving DecidableEq

instance {e a : Type} [DecidableEq e] [DecidableEq a] : DecidableEq (Except e a) := fun x y =>
  match x, y with
  | .ok u, .ok v => if h : u = v then isTrue (by rw [h]) else isFalse (by simp [h])
  | .error u, .error v => if h : u = v then isTrue (by rw [h]) else isFalse (by simp [h])
  | .ok _, .error _ => isFalse (by simp)
  | .error _, .ok _ => isFalse (by simp)

/-- Dereference of a possibly-null DOM reference: throws a `TypeError`
when the reference is null. -/
def deref {α : Type} (o : Option α) : Except String α :=
  match o with
  | some a => Except.ok a
  | none => Except.error "TypeError: cannot read properties of null"

/-- The contact-form submit handler (script.js lines 83–126).  `feedback`
is `qs('#form-feedback')`; the three fields are the raw input values.
Every unguarded dereference goes through `deref`, so a thrown `TypeError`
surfaces as `Except.error`. -/
def contactSubmit (feedback : Option FeedbackElem)
    (name email message : List Char) : Except String SubmitOutcome :=
  let errors := validationErrors name email message
  let warned := feedback.isNone
  if errors.length > 0 then
    if feedback.isSome then
      (deref feedback).map fun fb =>
        { feedback := some { textContent := String.intercalate " " errors
                           , classes := classAdd (classRemove fb.classes "success") "error" }
        , alertMsg := none
        , warned := warned
        , fieldsAfter := (name, email, message)
        , didReset := false }
    else
      Except.ok
        { feedback := none
        , alertMsg := some (String.intercalate "\n" errors)
        , warned := warned
        , fieldsAfter := (name, email, message)
        , didReset := false }
  else
    if feedback.isSome then
      (deref feedback).map fun fb =>
        { feedback := some { textContent := successMsg
                           , classes := classAdd (classRemove fb.classes "error") "success" }
        , alertMsg := none
        , warned := warned
        , fieldsAfter := ([], [], [])
        , didReset := true }
    else
      Except.ok
        { feedback := none
        , alertMsg := some successMsg
        , warned := warned
        , fieldsAfter := ([], [], [])
        , didReset := true }

/-! ### Theme toggle (script.js lines 196–223) -/

/-- The `localStorage` key (line 199). -/
def THEME_KEY : String := "portfolio-theme"

/-- `localStorage.getItem`. -/
def getItem (store : String → Option String) (k : String) : Option String :=
  store k

/-- `localStorage.setItem`. -/
def setItem (store : String → Option String) (k v : String) :
    String → Option String :=
  fun k' => if k' = k then some v else store k'

/-- The state the theme feature manipulates: the `dark-theme` class on the
document root, the `aria-pressed` attribute of `#theme-toggle`, and the
browser's key-value storage. -/
@[ext]
structure ThemeState where
  dark : Bool
  aria : Option String
  store : String → Option String

/-- `applyTheme(theme)` (lines 201–209).  `hasBtn` records whether
`#theme-toggle` exists (the `themeToggle && …` guards). -/
def applyTheme (hasBtn : Bool) (theme : String) (s : ThemeState) : ThemeState :=
  if theme = "dark" then
    { s with dark := true, aria := if hasBtn then some "true" else s.aria }
  else
    { s with dark := false, aria := if hasBtn then some "false" else s.aria }

/-- `localStorage.getItem(THEME_KEY) || 'light'` (line 212): JS `||`
falls back on `null` and on the empty string. -/
def jsOrLight (v : Option String) : String :=
  match v with
  | none => "light"
  | some s => if s = "" then "light" else s

/-- Theme initialization on load (lines 212–213). -/
def themeInit (hasBtn : Bool) (s : ThemeState) : ThemeState :=
  applyTheme hasBtn (jsOrLight (getItem s.store THEME_KEY)) s

/-- The `#theme-toggle` click handler (lines 217–222); it is only
installed when the button exists, so `hasBtn = true` inside it. -/
def themeToggleClick (s : ThemeState) : ThemeState :=
  let cur := if s.dark then "dark" else "light"
  let next := if cur = "dark" then "light" else "dark"
  let s' := applyTheme true next s
  { s' with store := setItem s'.store THEME_KEY next }

/-! ### Back-to-top button (script.js lines 180–191) -/

/-- The scroll handler on `#back-to-top` (lines 183–186): toggles the
`visible` class around the 400px threshold.  `scrollY` is the current
scroll offset, `cs` the button's class list. -/
def backTopScroll (scrollY : ℚ) (cs : List String) : List String :=
  if scrollY > 400 then classAdd cs "visible" else classRemove cs "visible"

/-! ### Scroll highlighter (script.js lines 40–57) -/

/-- A `section[id]` element: its id and bounding box. -/
structure Sec where
  id : String
  offsetTop : ℚ
  offsetHeight : ℚ
deriving DecidableEq

/-- A `nav ul li a` element: its `href` attribute and class list. -/
structure NavLink where
  href : String
  classes : List String
deriving DecidableEq

/-- `scrollPos >= top && scrollPos < bottom` (line 50). -/
def secContains (p : ℚ) (sec : Sec) : Prop :=
  sec.offsetTop ≤ p ∧ p < sec.offsetTop + sec.offsetHeight

instance (p : ℚ) (sec : Sec) : Decidable (secContains p sec) :=
  inferInstanceAs (Decidable (_ ∧ _))

/-- `navLinks.forEach(l => l.classList.remove('active'))` (line 51). -/
def clearActive (links : List NavLink) : List NavLink :=
  links.map fun l => { l with classes := classRemove l.classes "active" }

/-- `qs('nav ul li a[href="#id"]')` followed by
`link.classList.add('active')` (lines 49 and 52): the first link whose
`href` is `h` gains the `active` class. -/
def setActiveFirst : List NavLink → String → List NavLink
  | [], _ => []
  | l :: ls, h =>
    if l.href = h then { l with classes := classAdd l.classes "active" } :: ls
    else l :: setActiveFirst ls h

/-- One iteration of the `for (const sec of sections)` loop (lines
45–54). -/
def highlightStep (p : ℚ) (links : List NavLink) (sec : Sec) : List NavLink :=
  if secContains p sec then setActiveFirst (clearActive links) ("#" ++ sec.id)
  else links

/-- `onScrollHighlight` (lines 43–55): scan the sections in document
order with `scrollPos = scrollY + 120`. -/
def onScrollHighlight (scrollY : ℚ) (sections : List Sec)
    (links : List NavLink) : List NavLink :=
  sections.foldl (highlightStep (scrollY + 120)) links

/-! ### DOM queries and null-safety of the guarded handlers

The script looks elements up with `document.querySelector(All)` using the
descendant selectors `'nav ul'`, `'nav ul li a'`, `'#project-modal'`,
`'#project-modal .modal-close'`, `'#nav-toggle'`.  We model an element of
a document by its ancestor chain — the element's own descriptor first,
then its parent's, up to the root — and a document as the list of the
chains of all its elements.  In a real DOM tree every ancestor of an
element is itself an element of the document; `AncestorClosed` states
exactly that. -/

/-- What a simple selector can observe of one element. -/
structure SimpleDesc where
  tag : String
  idAttr : Option String
  classes : List String
deriving DecidableEq

/-- Simple selectors: tag name, `#id`, `.class`. -/
inductive SSel where
  | tagSel (t : String)
  | idSel (i : String)
  | classSel (c : String)
deriving DecidableEq

/-- One simple selector against one element descriptor. -/
def matchesS : SSel → SimpleDesc → Bool
  | .tagSel t, d => d.tag = t
  | .idSel i, d => d.idAttr = some i
  | .classSel c, d => decide (c ∈ d.classes)

/-- `matchesRev ss ds`: the selectors `ss` (innermost first) are matched,
in order, by some strictly ascending choice of ancestors `ds` (nearest
ancestor first). -/
def matchesRev : List SSel → List SimpleDesc → Bool
  | [], _ => true
  | _ :: _, [] => false
  | s :: ss, d :: ds => (matchesS s d && matchesRev ss ds) || matchesRev (s :: ss) ds

/-- A descendant selector (outermost simple selector first, as written in
CSS) against an element given by its ancestor chain (element first): the
last simple selector must match the element itself, the others some
ancestors above it, in order. -/
def chainMatches (sel : List SSel) (c : List SimpleDesc) : Bool :=
  match sel.reverse, c with
  | s :: ssRev, d :: ds => matchesS s d && matchesRev ssRev ds
  | _, _ => false

/-- `document.querySelectorAll(sel)`: all elements whose chain matches. -/
def queryAll (doc : List (List SimpleDesc)) (sel : List SSel) :
    List (List SimpleDesc) :=
  doc.filter fun c => chainMatches sel c

/-- `document.querySelector(sel)`: the first match, or null. -/
def query (doc : List (List SimpleDesc)) (sel : List SSel) :
    Option (List SimpleDesc) :=
  (queryAll doc sel).head?

/-- Every proper ancestor chain of an element of the document is itself
the chain of an element of the document. -/
def AncestorClosed (doc : List (List SimpleDesc)) : Prop :=
  ∀ c ∈ doc, ∀ k, k < c.length → c.drop k ∈ doc

instance (doc : List (List SimpleDesc)) : Decidable (AncestorClosed doc) :=
  inferInstanceAs (Decidable (∀ c ∈ doc, ∀ k, k < c.length → c.drop k ∈ doc))

/-- `'nav ul'` (script.js line 21). -/
def selNavUl : List SSel := [.tagSel "nav", .tagSel "ul"]

/-- `'nav ul li a'` (lines 31 and 41). -/
def selNavLinks : List SSel :=
  [.tagSel "nav", .tagSel "ul", .tagSel "li", .tagSel "a"]

/-- `'#nav-toggle'` (line 20). -/
def selNavToggle : List SSel := [.idSel "nav-toggle"]

/-- `'#project-modal'` (line 135). -/
def selModal : List SSel := [.idSel "project-modal"]

/-- `'#project-modal .modal-close'` (line 139). -/
def selModalClose : List SSel := [.idSel "project-modal", .classSel "modal-close"]

/-- The class list of the element a chain denotes. -/
def chainClasses (c : List SimpleDesc) : List String :=
  match c with
  | [] => []
  | d :: _ => d.classes

/-- The click handler installed on every `nav ul li a` element (lines
32–34): it dereferences `navUL` without a check, so it throws when
`qs('nav ul')` was null.  Returns the new class list of the nav `ul`. -/
def navLinkClick (navUL : Option (List SimpleDesc)) :
    Except String (List String) :=
  match navUL with
  | none => Except.error "TypeError: cannot read properties of null"
  | some u =>
    let cs := chainClasses u
    Except.ok (if "open" ∈ cs then classRemove cs "open" else cs)

/-- The `#nav-toggle` click handler (lines 24–27): installed whenever
`#nav-toggle` exists, it dereferences `navUL` without a check.  Returns
the new class list of the nav `ul` and the `aria-expanded` value. -/
def navToggleClick (navUL : Option (List SimpleDesc)) :
    Except String (List String × String) :=
  match navUL with
  | none => Except.error "TypeError: cannot read properties of null"
  | some u =>
    let cs := classToggle (chainClasses u) "open"
    Except.ok (cs, if "open" ∈ cs then "true" else "false")

/-- The `.modal-close` click handler (lines 161–164): dereferences
`modal` without a check.  Returns the modal's new class list. -/
def modalCloseClick (modal : Option (List SimpleDesc)) :
    Except String (List String) :=
  match modal with
  | none => Except.error "TypeError: cannot read properties of null"
  | some m => Except.ok (classRemove (chainClasses m) "open")

/-- A concrete page with the usual nav, modal, and toggle button, used as
an evaluation witness. -/
def demoDoc : List (List SimpleDesc) :=
  [ [⟨"nav", none, []⟩]
  , [⟨"ul", none, []⟩, ⟨"nav", none, []⟩]
  , [⟨"li", none, []⟩, ⟨"ul", none, []⟩, ⟨"nav", none, []⟩]
  , [⟨"a", none, []⟩, ⟨"li", none, []⟩, ⟨"ul", none, []⟩, ⟨"nav", none, []⟩]
  , [⟨"div", some "project-modal", ["modal"]⟩]
  , [⟨"button", some "nav-toggle", []⟩]
  , [⟨"span", none, ["modal-close"]⟩, ⟨"div", some "project-modal", ["modal"]⟩]
  ]

/-- A page that has the `#nav-toggle` button but no `nav ul` at all. -/
def toggleOnlyDoc : List (List SimpleDesc) :=
  [ [⟨"button", some "nav-toggle", []⟩]
  , [⟨"header", none, []⟩]
  ]

/-! ## Theorems -/

/-! ### classList lemmas -/

theorem mem_classAdd_iff (cs : List String) (a c : String) :
    a ∈ classAdd cs c ↔ a ∈ cs ∨ a = c := by
  unfold classAdd
  by_cases h : c ∈ cs
  · simp only [if_pos h]
    constructor
    · exact fun ha => Or.inl ha
    · rintro (ha | rfl)
      · exact ha
      · exact h
  · simp [if_neg h, List.mem_append]

theorem mem_classAdd_self (cs : List String) (c : String) : c ∈ classAdd cs c :=
  (mem_classAdd_iff cs c c).mpr (Or.inr rfl)

theorem mem_classRemove_iff (cs : List String) (a c : String) :
    a ∈ classRemove cs c ↔ a ∈ cs ∧ a ≠ c := by
  unfold classRemove
  simp [List.mem_filter]

theorem not_mem_classRemove (cs : List String) (c : String) : c ∉ classRemove cs c := by
  intro h
  exact absurd ((mem_classRemove_iff cs c c).mp h).2 (by simp)

theorem intercalate_singleton (s x : String) : String.intercalate s [x] = x := by
  simp [String.intercalate, String.intercalate.go]

/-! ### Contact form -/

/-- C2: submitting the form with an empty trimmed name while the email
passes the regex and the trimmed message is non-empty sets the feedback
text to exactly "Please enter your name.", adds the class `error`,
removes the class `success`, and returns without resetting the form. -/
theorem contactSubmit_empty_name (fb : FeedbackElem) (name email message : List Char)
    (hn : jsTrim name = [])
    (he : emailRegexTest (jsTrim email) = true)
    (hm : jsTrim message ≠ []) :
    ∃ fb', contactSubmit (some fb) name email message = Except.ok
        { feedback := some fb'
        , alertMsg := none
        , warned := false
        , fieldsAfter := (name, email, message)
        , didReset := false } ∧
      fb'.textContent = "Please enter your name." ∧
      "error" ∈ fb'.classes ∧ "success" ∉ fb'.classes := by
  have h1 : (jsTrim name).isEmpty = true := by rw [hn]; rfl
  have h2 : (jsTrim email).isEmpty = false := by
    rcases h : jsTrim email with _ | ⟨c, cs⟩
    · rw [h] at he; exact absurd he (by decide)
    · rfl
  have h3 : (jsTrim message).isEmpty = false := by
    rcases h : jsTrim message with _ | ⟨c, cs⟩
    · exact absurd h hm
    · rfl
  have herrs : validationErrors name email message = [nameErrorMsg] := by
    simp [validationErrors, h1, h2, h3, he]
  refine ⟨{ textContent := "Please enter your name."
          , classes := classAdd (classRemove fb.classes "success") "error" }, ?_, rfl, ?_, ?_⟩
  · simp [contactSubmit, herrs, deref, intercalate_singleton, nameErrorMsg, Except.map]
  · exact mem_classAdd_self _ _
  · intro hmem
    rcases (mem_classAdd_iff _ _ _).mp hmem with h | h
    · exact not_mem_classRemove _ _ h
    · exact absurd h (by decide)

/-- Witness for C2 at the concrete submission (" ", "a@b.c", "hi"). -/
theorem contactSubmit_empty_name_witness :
    jsTrim " ".toList = [] ∧ emailRegexTest (jsTrim "a@b.c".toList) = true ∧
    jsTrim "hi".toList ≠ [] ∧
    (∃ fb', contactSubmit (some ⟨"", []⟩) " ".toList "a@b.c".toList "hi".toList = Except.ok
        { feedback := some fb'
        , alertMsg := none
        , warned := false
        , fieldsAfter := (" ".toList, "a@b.c".toList, "hi".toList)
        , didReset := false } ∧
      fb'.textContent = "Please enter your name." ∧
      "error" ∈ fb'.classes ∧ "success" ∉ fb'.classes) :=
  ⟨by decide, by decide, by decide,
    contactSubmit_empty_name ⟨"", []⟩ _ _ _ (by decide) (by decide) (by decide)⟩



/-- C3: when the trimmed email is empty or fails the regex
`/^[^\s@]+@[^\s@]+\.[^\s@]+$/`, the submit handler adds
"Please enter a valid email." to the errors list and takes the error
path: it returns before the reset, whether or not a feedback element
exists. -/
theorem contactSubmit_invalid_email (name email message : List Char)
    (he : jsTrim email = [] ∨ emailRegexTest (jsTrim email) = false) :
    emailErrorMsg ∈ validationErrors name email message ∧
    ∀ fbOpt : Option FeedbackElem, ∃ out,
      contactSubmit fbOpt name email message = Except.ok out ∧ out.didReset = false := by
  have hcond : ((jsTrim email).isEmpty || !emailRegexTest (jsTrim email)) = true := by
    rcases he with h | h
    · rw [h]; rfl
    · simp [h]
  have hmem : emailErrorMsg ∈ validationErrors name email message := by
    simp [validationErrors, hcond]
  have herr : validationErrors name email message ≠ [] := by
    intro h
    rw [h] at hmem
    exact (List.not_mem_nil _) hmem
  have hlen : 0 < (validationErrors name email message).length := List.length_pos.mpr herr
  refine ⟨hmem, ?_⟩
  intro fbOpt
  cases fbOpt with
  | none =>
    exact ⟨{ feedback := none
           , alertMsg := some (String.intercalate "\n" (validationErrors name email message))
           , warned := true
           , fieldsAfter := (name, email, message)
           , didReset := false }, by simp [contactSubmit, hlen], rfl⟩
  | some fb =>
    exact ⟨{ feedback := some { textContent := String.intercalate " " (validationErrors name email message)
                              , classes := classAdd (classRemove fb.classes "success") "error" }
           , alertMsg := none
           , warned := false
           , fieldsAfter := (name, email, message)
           , didReset := false }, by simp [contactSubmit, hlen, deref, Except.map], rfl⟩

/-- Witness for C3 at the concrete email "not-an-email". -/
theorem contactSubmit_invalid_email_witness :
    (jsTrim "not-an-email".toList = [] ∨ emailRegexTest (jsTrim "not-an-email".toList) = false) ∧
    (emailErrorMsg ∈ validationErrors "Ann".toList "not-an-email".toList "hey".toList ∧
     ∀ fbOpt : Option FeedbackElem, ∃ out,
       contactSubmit fbOpt "Ann".toList "not-an-email".toList "hey".toList = Except.ok out ∧
         out.didReset = false) :=
  ⟨Or.inr (by decide), contactSubmit_invalid_email _ _ _ (Or.inr (by decide))⟩

/-- C10: every submission that fails validation returns before the
`reset()` call, so the typed field values are preserved. -/
theorem contactSubmit_error_preserves_fields (fbOpt : Option FeedbackElem)
    (name email message : List Char)
    (herr : validationErrors name email message ≠ []) :
    ∃ out, contactSubmit fbOpt name email message = Except.ok out ∧
      out.didReset = false ∧ out.fieldsAfter = (name, email, message) := by
  have hlen : 0 < (validationErrors name email message).length := List.length_pos.mpr herr
  cases fbOpt with
  | none =>
    exact ⟨{ feedback := none
           , alertMsg := some (String.intercalate "\n" (validationErrors name email message))
           , warned := true
           , fieldsAfter := (name, email, message)
           , didReset := false }, by simp [contactSubmit, hlen], rfl, rfl⟩
  | some fb =>
    exact ⟨{ feedback := some { textContent := String.intercalate " " (validationErrors name email message)
                              , classes := classAdd (classRemove fb.classes "success") "error" }
           , alertMsg := none
           , warned := false
           , fieldsAfter := (name, email, message)
           , didReset := false }, by simp [contactSubmit, hlen, deref, Except.map], rfl, rfl⟩

/-- Witness for C10 at the concrete submission ("", "a@b.c", "hello"). -/
theorem contactSubmit_error_preserves_fields_witness :
    validationErrors "".toList "a@b.c".toList "hello".toList ≠ [] ∧
    (∃ out, contactSubmit (some ⟨"", []⟩) "".toList "a@b.c".toList "hello".toList = Except.ok out ∧
      out.didReset = false ∧ out.fieldsAfter = ("".toList, "a@b.c".toList, "hello".toList)) :=
  ⟨by decide, contactSubmit_error_preserves_fields (some ⟨"", []⟩) _ _ _ (by decide)⟩

/-- C9: when all three trimmed fields pass validation, the feedback
element receives the success text with class `success` and without class
`error`, and the form is reset, clearing the three fields. -/
theorem contactSubmit_success_resets (fb : FeedbackElem) (name email message : List Char)
    (hn : jsTrim name ≠ [])
    (he : emailRegexTest (jsTrim email) = true)
    (hm : jsTrim message ≠ []) :
    ∃ fb', contactSubmit (some fb) name email message = Except.ok
        { feedback := some fb'
        , alertMsg := none
        , warned := false
        , fieldsAfter := ([], [], [])
        , didReset := true } ∧
      fb'.textContent = "Message sent successfully! Thank you 😊" ∧
      "success" ∈ fb'.classes ∧ "error" ∉ fb'.classes := by
  have h1 : (jsTrim name).isEmpty = false := by
    rcases h : jsTrim name with _ | ⟨c, cs⟩
    · exact absurd h hn
    · rfl
  have h2 : (jsTrim email).isEmpty = false := by
    rcases h : jsTrim email with _ | ⟨c, cs⟩
    · rw [h] at he; exact absurd he (by decide)
    · rfl
  have h3 : (jsTrim message).isEmpty = false := by
    rcases h : jsTrim message with _ | ⟨c, cs⟩
    · exact absurd h hm
    · rfl
  have herrs : validationErrors name email message = [] := by
    simp [validationErrors, h1, h2, h3, he]
  refine ⟨{ textContent := "Message sent successfully! Thank you 😊"
          , classes := classAdd (classRemove fb.classes "error") "success" }, ?_, rfl, ?_, ?_⟩
  · simp [contactSubmit, herrs, deref, Except.map, successMsg]
  · exact mem_classAdd_self _ _
  · intro hmem
    rcases (mem_classAdd_iff _ _ _).mp hmem with h | h
    · exact not_mem_classRemove _ _ h
    · exact absurd h (by decide)

/-- Witness for C9 at the concrete submission ("Bob", "x@y.z", "yo"). -/
theorem contactSubmit_success_resets_witness :
    jsTrim "Bob".toList ≠ [] ∧ emailRegexTest (jsTrim "x@y.z".toList) = true ∧
    jsTrim "yo".toList ≠ [] ∧
    (∃ fb', contactSubmit (some ⟨"old", ["error"]⟩) "Bob".toList "x@y.z".toList "yo".toList =
        Except.ok
          { feedback := some fb'
          , alertMsg := none
          , warned := false
          , fieldsAfter := ([], [], [])
          , didReset := true } ∧
      fb'.textContent = "Message sent successfully! Thank you 😊" ∧
      "success" ∈ fb'.classes ∧ "error" ∉ fb'.classes) :=
  ⟨by decide, by decide, by decide,
    contactSubmit_success_resets ⟨"old", ["error"]⟩ _ _ _ (by decide) (by decide) (by decide)⟩

/-- C7: when `#form-feedback` is absent, the handler falls back to a
blocking alert — the error messages joined by newlines on failure, the
success message on success — and no exception propagates (the result is
`Except.ok` for every input). -/
theorem contactSubmit_alert_fallback (name email message : List Char) :
    ∃ out, contactSubmit none name email message = Except.ok out ∧
      out.feedback = none ∧ out.warned = true ∧
      out.alertMsg = some (if validationErrors name email message = []
        then successMsg
        else String.intercalate "\n" (validationErrors name email message)) := by
  by_cases h : validationErrors name email message = []
  · exact ⟨{ feedback := none
           , alertMsg := some successMsg
           , warned := true
           , fieldsAfter := ([], [], [])
           , didReset := true }, by simp [contactSubmit, h], rfl, rfl, by simp [h]⟩
  · have hlen : 0 < (validationErrors name email message).length := List.length_pos.mpr h
    exact ⟨{ feedback := none
           , alertMsg := some (String.intercalate "\n" (validationErrors name email message))
           , warned := true
           , fieldsAfter := (name, email, message)
           , didReset := false }, by simp [contactSubmit, hlen], rfl, rfl, by simp [h]⟩

/-! ### Theme toggle -/

theorem setItem_override (st : String → Option String) (k v w : String) :
    setItem (setItem st k v) k w = setItem st k w := by
  funext k'
  by_cases h : k' = k <;> simp [setItem, h]

/-- C4: the theme-toggle click step is an involution on the states a
toggle can produce: after a first click, two further clicks restore the
whole state — the `dark-theme` class, the `aria-pressed` attribute and
the value stored under 'portfolio-theme' — and on the class alone two
clicks always restore the starting value. -/
theorem themeToggle_involution (s : ThemeState) :
    themeToggleClick (themeToggleClick (themeToggleClick s)) = themeToggleClick s ∧
    (themeToggleClick (themeToggleClick s)).dark = s.dark := by
  obtain ⟨d, a, st⟩ := s
  cases d <;>
    constructor <;>
    simp [themeToggleClick, applyTheme, setItem_override]

/-- C6: initialization reads the value stored under 'portfolio-theme'
(defaulting to 'light' when absent) and applies it; afterwards the root
carries the `dark-theme` class exactly when the stored value is
'dark'. -/
theorem themeInit_dark_iff (hasBtn : Bool) (s : ThemeState) :
    ((themeInit hasBtn s).dark = true) ↔ s.store THEME_KEY = some "dark" := by
  rcases h : s.store THEME_KEY with _ | v
  · simp [themeInit, applyTheme, jsOrLight, getItem, h]
  · by_cases hv : v = ""
    · simp [themeInit, applyTheme, jsOrLight, getItem, h, hv]
    · by_cases hd : v = "dark"
      · simp [themeInit, applyTheme, jsOrLight, getItem, h, hv, hd]
      · simp [themeInit, applyTheme, jsOrLight, getItem, h, hv, hd]

/-! ### Back-to-top button -/

/-- C5: after the scroll handler runs, the back-to-top control carries
the `visible` class exactly when the scroll offset is strictly greater
than 400 pixels; at or below 400 the class is removed. -/
theorem backTopScroll_visible_iff (scrollY : ℚ) (cs : List String) :
    ("visible" ∈ backTopScroll scrollY cs) ↔ scrollY > 400 := by
  unfold backTopScroll
  by_cases h : scrollY > 400
  · simp [if_pos h, h, mem_classAdd_self]
  · simp [if_neg h, h, not_mem_classRemove]

/-! ### Scroll highlighter -/


theorem foldl_highlight_id (p : ℚ) (secs : List Sec)
    (h : ∀ s ∈ secs, ¬ secContains p s) (links : List NavLink) :
    secs.foldl (highlightStep p) links = links := by
  induction secs generalizing links with
  | nil => rfl
  | cons sec secs ih =>
    rw [List.foldl_cons]
    rw [highlightStep, if_neg (h sec (List.mem_cons_self sec secs))]
    exact ih (fun s hs => h s (List.mem_cons_of_mem sec hs)) links

theorem clearActive_no_active (links : List NavLink) :
    ∀ l ∈ clearActive links, "active" ∉ l.classes := by
  intro l hl
  obtain ⟨x, hx, rfl⟩ := List.mem_map.mp hl
  exact not_mem_classRemove _ _

theorem clearActive_href_mem (links : List NavLink) (h0 : String)
    (h : ∃ l ∈ links, l.href = h0) : ∃ l ∈ clearActive links, l.href = h0 := by
  obtain ⟨l, hl, hh⟩ := h
  exact ⟨{ l with classes := classRemove l.classes "active" },
    List.mem_map.mpr ⟨l, hl, rfl⟩, hh⟩

theorem setActiveFirst_spec (ls : List NavLink) (h0 : String)
    (hclean : ∀ l ∈ ls, "active" ∉ l.classes)
    (hex : ∃ l ∈ ls, l.href = h0) :
    List.countP (fun l => decide ("active" ∈ l.classes)) (setActiveFirst ls h0) = 1 ∧
    ∀ l ∈ setActiveFirst ls h0, "active" ∈ l.classes → l.href = h0 := by
  induction ls with
  | nil =>
    obtain ⟨l, hl, _⟩ := hex
    exact absurd hl (List.not_mem_nil l)
  | cons l ls ih =>
    by_cases hh : l.href = h0
    · rw [setActiveFirst, if_pos hh]
      constructor
      · rw [List.countP_cons]
        have hhd : (fun x => decide ("active" ∈ x.classes))
            ({ l with classes := classAdd l.classes "active" } : NavLink) = true := by
          simp [mem_classAdd_self]
        rw [List.countP_eq_zero.mpr (fun a ha hact => by
          exact hclean a (List.mem_cons_of_mem l ha) (of_decide_eq_true hact))]
        simp [hhd]
      · intro x hx hact
        rcases List.mem_cons.mp hx with rfl | hx'
        · exact hh
        · exact absurd hact (hclean x (List.mem_cons_of_mem l hx'))
    · rw [setActiveFirst, if_neg hh]
      have hex' : ∃ x ∈ ls, x.href = h0 := by
        obtain ⟨x, hx, hxh⟩ := hex
        rcases List.mem_cons.mp hx with rfl | hx'
        · exact absurd hxh hh
        · exact ⟨x, hx', hxh⟩
      have hclean' : ∀ x ∈ ls, "active" ∉ x.classes :=
        fun x hx => hclean x (List.mem_cons_of_mem l hx)
      obtain ⟨ih1, ih2⟩ := ih hclean' hex'
      constructor
      · rw [List.countP_cons]
        have : (fun x => decide ("active" ∈ x.classes)) l = false := by
          simp
          exact hclean l (List.mem_cons_self l ls)
        simp [this, ih1]
      · intro x hx hact
        rcases List.mem_cons.mp hx with rfl | hx'
        · exact absurd hact (hclean x (List.mem_cons_self x ls))
        · exact ih2 x hx' hact

/-- C8: when `scrollY + 120` lies inside exactly one section's
`[offsetTop, offsetTop + offsetHeight)` range (here: sections split as
`pre ++ sec :: post` with only `sec` containing it) and some nav link
targets that section's id, the handler leaves exactly one link carrying
the `active` class, and every link carrying it targets that section. -/
theorem onScrollHighlight_unique_active (scrollY : ℚ) (pre post : List Sec)
    (sec : Sec) (links : List NavLink)
    (hpre : ∀ s ∈ pre, ¬ secContains (scrollY + 120) s)
    (hsec : secContains (scrollY + 120) sec)
    (hpost : ∀ s ∈ post, ¬ secContains (scrollY + 120) s)
    (hlink : ∃ l ∈ links, l.href = "#" ++ sec.id) :
    List.countP (fun l => decide ("active" ∈ l.classes))
        (onScrollHighlight scrollY (pre ++ sec :: post) links) = 1 ∧
    ∀ l ∈ onScrollHighlight scrollY (pre ++ sec :: post) links,
      "active" ∈ l.classes → l.href = "#" ++ sec.id := by
  unfold onScrollHighlight
  rw [List.foldl_append, foldl_highlight_id _ _ hpre links, List.foldl_cons]
  rw [highlightStep, if_pos hsec]
  rw [foldl_highlight_id _ _ hpost]
  exact setActiveFirst_spec _ _ (clearActive_no_active links)
    (clearActive_href_mem links _ hlink)

/-- Witness for C8: one section "about" containing offset 320, two nav
links. -/
theorem onScrollHighlight_unique_active_witness :
    (∀ s ∈ ([] : List Sec), ¬ secContains (200 + 120) s) ∧
    secContains (200 + 120) ⟨"about", 100, 300⟩ ∧
    (∀ s ∈ ([] : List Sec), ¬ secContains (200 + 120) s) ∧
    (∃ l ∈ [NavLink.mk "#about" [], NavLink.mk "#home" ["active"]],
      l.href = "#" ++ (Sec.mk "about" 100 300).id) ∧
    (List.countP (fun l => decide ("active" ∈ l.classes))
        (onScrollHighlight 200 ([] ++ ⟨"about", 100, 300⟩ :: [])
          [NavLink.mk "#about" [], NavLink.mk "#home" ["active"]]) = 1 ∧
      ∀ l ∈ onScrollHighlight 200 ([] ++ ⟨"about", 100, 300⟩ :: [])
          [NavLink.mk "#about" [], NavLink.mk "#home" ["active"]],
        "active" ∈ l.classes → l.href = "#" ++ (Sec.mk "about" 100 300).id) :=
  ⟨by simp, by simp only [secContains]; norm_num, by simp, by decide,
    onScrollHighlight_unique_active 200 [] [] ⟨"about", 100, 300⟩
      [NavLink.mk "#about" [], NavLink.mk "#home" ["active"]]
      (by simp) (by simp only [secContains]; norm_num) (by simp) (by decide)⟩

/-! ### Null-safety of the guarded handlers -/

theorem matchesRev_widen (ss : List SSel) (d : SimpleDesc) (ds : List SimpleDesc)
    (h : matchesRev ss ds = true) : matchesRev ss (d :: ds) = true := by
  cases ss with
  | nil => rfl
  | cons s ss => simp [matchesRev, h]

theorem matchesRev_tail (s : SSel) (ss : List SSel) (ds : List SimpleDesc)
    (h : matchesRev (s :: ss) ds = true) : matchesRev ss ds = true := by
  induction ds with
  | nil => exact absurd h (by simp [matchesRev])
  | cons d ds ih =>
    simp only [matchesRev, Bool.or_eq_true, Bool.and_eq_true] at h
    rcases h with ⟨h1, h2⟩ | h2
    · exact matchesRev_widen ss d ds h2
    · exact matchesRev_widen ss d ds (ih h2)

theorem matchesRev_split (s : SSel) (ss : List SSel) (ds : List SimpleDesc)
    (h : matchesRev (s :: ss) ds = true) :
    ∃ k, ∃ hk : k < ds.length,
      matchesS s (ds.get ⟨k, hk⟩) = true ∧ matchesRev ss (ds.drop (k + 1)) = true := by
  induction ds with
  | nil => exact absurd h (by simp [matchesRev])
  | cons d ds ih =>
    simp only [matchesRev, Bool.or_eq_true, Bool.and_eq_true] at h
    rcases h with ⟨h1, h2⟩ | h2
    · exact ⟨0, by simp, h1, h2⟩
    · obtain ⟨k, hk, hm, hrest⟩ := ih h2
      exact ⟨k + 1, by simpa using Nat.succ_lt_succ hk, by simpa using hm, by simpa using hrest⟩

theorem suffix_elem_match (doc : List (List SimpleDesc)) (hdoc : AncestorClosed doc)
    (d : SimpleDesc) (ds : List SimpleDesc) (hc : d :: ds ∈ doc)
    (s : SSel) (ss : List SSel) (h : matchesRev (s :: ss) ds = true) :
    ∃ u ∈ doc, ∃ u₀ us, u = u₀ :: us ∧ matchesS s u₀ = true ∧ matchesRev ss us = true := by
  obtain ⟨k, hk, hmS, hrest⟩ := matchesRev_split s ss ds h
  refine ⟨ds.drop k, ?_, ds.get ⟨k, hk⟩, ds.drop (k + 1), List.drop_eq_getElem_cons hk, hmS, hrest⟩
  have h2 := hdoc (d :: ds) hc (k + 1) (by simp only [List.length_cons]; omega)
  simpa using h2

theorem query_isSome_of_mem (doc : List (List SimpleDesc)) (sel : List SSel)
    (c : List SimpleDesc) (hc : c ∈ doc) (hm : chainMatches sel c = true) :
    (query doc sel).isSome = true := by
  have hmem : c ∈ queryAll doc sel := List.mem_filter.mpr ⟨hc, hm⟩
  unfold query
  cases hq : queryAll doc sel with
  | nil => rw [hq] at hmem; exact absurd hmem (List.not_mem_nil c)
  | cons x xs => rfl

/-- C1 (amended): in every ancestor-closed document, the handlers whose
installation is tied to an existence check run without throwing: a click
handler on a `nav ul li a` element can only have been installed when
`qs('nav ul')` is non-null (the link's own ancestors force a match), and
the `.modal-close` click handler only when `qs('#project-modal')` is
non-null, so neither unchecked dereference can be a null dereference.
(The claim's universal form fails for the `#nav-toggle` handler, see the
counterexample.) -/
theorem guarded_handlers_no_throw (doc : List (List SimpleDesc))
    (hdoc : AncestorClosed doc) :
    ((∃ c ∈ doc, chainMatches selNavLinks c = true) →
      (navLinkClick (query doc selNavUl)).isOk = true) ∧
    ((∃ c ∈ doc, chainMatches selModalClose c = true) →
      (modalCloseClick (query doc selModal)).isOk = true) := by
  constructor
  · rintro ⟨c, hc, hm⟩
    cases c with
    | nil => exact absurd hm (by decide)
    | cons d ds =>
      replace hm : (matchesS (SSel.tagSel "a") d &&
          matchesRev [SSel.tagSel "li", SSel.tagSel "ul", SSel.tagSel "nav"] ds) = true := hm
      rw [Bool.and_eq_true] at hm
      have h2 := matchesRev_tail _ _ _ hm.2
      obtain ⟨u, hu, u₀, us, hEq, hS, hR⟩ := suffix_elem_match doc hdoc d ds hc _ _ h2
      subst hEq
      have hq : chainMatches selNavUl (u₀ :: us) = true := by
        show (matchesS (SSel.tagSel "ul") u₀ && matchesRev [SSel.tagSel "nav"] us) = true
        rw [Bool.and_eq_true]
        exact ⟨hS, hR⟩
      have hqs := query_isSome_of_mem doc selNavUl _ hu hq
      cases hq2 : query doc selNavUl with
      | none => rw [hq2] at hqs; exact absurd hqs (by decide)
      | some u' => rfl
  · rintro ⟨c, hc, hm⟩
    cases c with
    | nil => exact absurd hm (by decide)
    | cons d ds =>
      replace hm : (matchesS (SSel.classSel "modal-close") d &&
          matchesRev [SSel.idSel "project-modal"] ds) = true := hm
      rw [Bool.and_eq_true] at hm
      obtain ⟨u, hu, u₀, us, hEq, hS, hR⟩ := suffix_elem_match doc hdoc d ds hc _ _ hm.2
      subst hEq
      have hq : chainMatches selModal (u₀ :: us) = true := by
        show (matchesS (SSel.idSel "project-modal") u₀ && matchesRev [] us) = true
        rw [Bool.and_eq_true]
        exact ⟨hS, hR⟩
      have hqs := query_isSome_of_mem doc selModal _ hu hq
      cases hq2 : query doc selModal with
      | none => rw [hq2] at hqs; exact absurd hqs (by decide)
      | some u' => rfl

/-- Witness for C1 on a concrete page carrying the nav list, nav links,
modal and close button. -/
theorem guarded_handlers_no_throw_witness :
    AncestorClosed demoDoc ∧
    (navLinkClick (query demoDoc selNavUl)).isOk = true ∧
    (modalCloseClick (query demoDoc selModal)).isOk = true :=
  ⟨by decide,
    (guarded_handlers_no_throw demoDoc (by decide)).1 (by decide),
    (guarded_handlers_no_throw demoDoc (by decide)).2 (by decide)⟩

/-- C1 counterexample: on a page where `#nav-toggle` exists but the nav
list is absent, the script installs the nav-toggle click handler (its
guard only checks `#nav-toggle`), and running that handler throws a
`TypeError` on the unchecked `navUL.classList` access — so not every
installed handler tolerates a missing optional element. -/
theorem navToggle_throws_counterexample :
    AncestorClosed toggleOnlyDoc ∧
    (query toggleOnlyDoc selNavToggle).isSome = true ∧
    (query toggleOnlyDoc selNavUl) = none ∧
    navToggleClick (query toggleOnlyDoc selNavUl) =
      Except.error "TypeError: cannot read properties of null" := by
  refine ⟨by decide, by decide, by decide, by decide⟩

end Portfolio
